import Mathlib

/-!
Shallow embedding of the TerminalCrawler crawl engine (src/db.py, src/crawler.py).

The frontier store (SQLite table `urls`) is modelled as a list of records in
insertion (rowid) order; the in-memory pending queue (`queue.Queue`) as a list
of strings with `put` appending at the tail.  Timestamps
(`last_status_change`) are wall-clock data and are not modelled; no claim
refers to them.  SQL `UPDATE ... WHERE` is a row-by-row traversal, `SELECT`
a filter, and the `url LIKE ? || '%'` tests of `pause_prefix`/`resume_prefix`
are modelled by a faithful SQLite LIKE matcher (ASCII-case-insensitive,
`%`/`_` wildcards).
-/

namespace TerminalCrawler

/-- Row status column of the `urls` table: 'pending' | 'visited' | 'paused' | 'error'. -/
inductive Status where
  | pending
  | visited
  | paused
  | error
deriving DecidableEq, Repr

/-- One row of the `urls` table (src/db.py `_init_db`).  `id` is the list
position, `last_status_change` is not modelled (wall clock).  `is_sitemap`
is an SQLite INTEGER (the code stores 0/1), kept as `Nat`. -/
structure UrlRecord where
  url : String
  status : Status
  lastError : Option String
  retryCount : Nat
  isSitemap : Nat
  pauseReason : Option String
deriving DecidableEq, Repr

/-- src/crawler.py line 23: `MAX_RETRIES = 3`. -/
def MAX_RETRIES : Nat := 3

/-- SQLite default case folding for LIKE: ASCII letters only. -/
def sqliteLower (c : Char) : Char :=
  if 'A' ≤ c && c ≤ 'Z' then Char.ofNat (c.toNat + 32) else c

/-- ASCII whitespace stripped by Python `str.strip()`. -/
def pyWhitespace (c : Char) : Bool :=
  c == ' ' || c == '\t' || c == '\n' || c == '\r' || c == '\x0b' || c == '\x0c'

/-- Python `str.strip()` (ASCII whitespace; the wider Unicode whitespace
classes play no role in the claims). -/
def pyStrip (s : String) : String :=
  ⟨((s.data.dropWhile pyWhitespace).reverse.dropWhile pyWhitespace).reverse⟩

/-- Python `str.startswith` / `str.endswith`, as list operations so that
closed instances evaluate inside the kernel. -/
def strStartsWith (s pre : String) : Bool :=
  pre.data.isPrefixOf s.data

/-- See `strStartsWith`. -/
def strEndsWith (s suf : String) : Bool :=
  suf.data.isSuffixOf s.data

/-- Python `str.lower()` on the ASCII range (the only range the claims
exercise). -/
def pyLower (s : String) : String :=
  ⟨s.data.map sqliteLower⟩

/-- Python substring containment (`needle in hay`). -/
def listContainsSub (needle : List Char) : List Char → Bool
  | [] => needle.isEmpty
  | c :: rest => needle.isPrefixOf (c :: rest) || listContainsSub needle rest

/-- All suffixes of a character list, the list itself first. -/
def suffixes : List Char → List (List Char)
  | [] => [[]]
  | c :: cs => (c :: cs) :: suffixes cs

/-- SQLite LIKE pattern matching (no ESCAPE clause): `%` matches any run of
characters (the rest of the pattern matches some suffix), `_` matches exactly
one character, any other pattern character matches itself up to ASCII case. -/
def likeMatch : List Char → List Char → Bool
  | [], s => s.isEmpty
  | '%' :: ps, s => (suffixes s).any (fun t => likeMatch ps t)
  | '_' :: _, [] => false
  | '_' :: ps, _ :: cs => likeMatch ps cs
  | _ :: _, [] => false
  | p :: ps, c :: cs => (sqliteLower p == sqliteLower c) && likeMatch ps cs

/-- The WHERE clause `url LIKE ?` with parameter `f"{pfx}%"` used by
`CrawlerDB.pause_prefix` and `CrawlerDB.resume_prefix`. -/
def urlLike (pfx url : String) : Bool :=
  likeMatch (pfx.data ++ ['%']) url.data

namespace CrawlerDB

/-- src/db.py `insert_or_ignore_url`: INSERT a fresh row
(retry_count 0, no error, no pause reason) unless the UNIQUE constraint on
`url` fires (sqlite3.IntegrityError), in which case nothing changes and the
function reports False. -/
def insert_or_ignore_url (db : List UrlRecord) (url : String) (status : Status)
    (is_sitemap : Nat) : Bool × List UrlRecord :=
  if db.any (fun r => r.url == url) then
    (false, db)
  else
    (true, db ++ [{ url := url, status := status, lastError := none,
                    retryCount := 0, isSitemap := is_sitemap, pauseReason := none }])

/-- The per-row effect of the dynamic UPDATE built by src/db.py
`update_url_status`: `status` and `last_status_change` are always assigned;
`last_error` only when the argument is not None; `retry_count` is bumped by 1
when `increment_retry`; `is_sitemap` only when not None; `pause_reason` is
assigned when not None, set to NULL when `clear_pause_reason`, else kept. -/
def applyUpdate (status : Status) (last_error : Option String)
    (is_sitemap : Option Nat) (pause_reason : Option String)
    (clear_pause_reason : Bool) (increment_retry : Bool)
    (r : UrlRecord) : UrlRecord :=
  { r with
    status := status
    lastError := match last_error with
      | some e => some e
      | none => r.lastError
    retryCount := if increment_retry then r.retryCount + 1 else r.retryCount
    isSitemap := match is_sitemap with
      | some v => v
      | none => r.isSitemap
    pauseReason := match pause_reason with
      | some p => some p
      | none => if clear_pause_reason then none else r.pauseReason }

/-- src/db.py `update_url_status`: `UPDATE urls SET ... WHERE url = ?`.
The row scan applies `applyUpdate` to every row whose `url` column equals the
parameter (an unknown URL is a silent no-op). -/
def update_url_status (db : List UrlRecord) (url : String) (status : Status)
    (last_error : Option String) (is_sitemap : Option Nat)
    (pause_reason : Option String) (clear_pause_reason : Bool)
    (increment_retry : Bool) : List UrlRecord :=
  db.map (fun r =>
    if r.url == url then
      applyUpdate status last_error is_sitemap pause_reason
        clear_pause_reason increment_retry r
    else r)

/-- src/db.py `pause_prefix`: `UPDATE urls SET status='paused',
pause_reason=? WHERE url LIKE ? AND status='pending'`, returning
`cur.rowcount` (the number of rows the UPDATE touched) alongside the new
table.  Written as the row scan the UPDATE performs. -/
def pause_prefix : List UrlRecord → String → String → Nat × List UrlRecord
  | [], _, _ => (0, [])
  | r :: rest, pfx, reason =>
    let (n, rest') := pause_prefix rest pfx reason
    if urlLike pfx r.url && r.status == Status.pending then
      (n + 1, { r with status := Status.paused, pauseReason := some reason } :: rest')
    else
      (n, r :: rest')

/-- src/db.py `resume_prefix`: first `SELECT url ... WHERE url LIKE ? AND
status='paused'` (a filter over the table in rowid order), then the matching
UPDATE back to pending with `pause_reason = NULL`; returns the selected urls,
the rowcount and the new table. -/
def resume_prefix (db : List UrlRecord) (pfx : String) :
    List String × Nat × List UrlRecord :=
  let hits := db.filter (fun r => urlLike pfx r.url && r.status == Status.paused)
  let urls := hits.map (fun r => r.url)
  let db' := db.map (fun r =>
    if urlLike pfx r.url && r.status == Status.paused then
      { r with status := Status.pending, pauseReason := none }
    else r)
  (urls, hits.length, db')

end CrawlerDB

/-- The engine state a control-plane or worker operation touches: the frontier
store (`self.db`) and the in-memory pending queue (`self.pending_queue`).
`queue.Queue.put` appends at the tail. -/
structure CrawlerState where
  store : List UrlRecord
  queue : List String
deriving DecidableEq, Repr

namespace Crawler

/-- src/crawler.py `_normalize_url`: strip whitespace; an empty result is
rejected as `""`; a URL that already carries an http/https scheme is passed
through unchanged — and so is any other non-empty URL (the final
`return url`). -/
def normalize_url (url : String) : String :=
  let url := pyStrip url
  if url == "" then ""
  else if strStartsWith url "http://" || strStartsWith url "https://" then url
  else url

/-- src/crawler.py `_looks_like_sitemap`. -/
def looks_like_sitemap (url : String) : Bool :=
  let lower := pyLower url
  strEndsWith lower ".xml" || strEndsWith lower ".xml.gz" ||
    listContainsSub "sitemap".data lower.data

/-- src/crawler.py `_enqueue_new_url`: insert-if-absent as pending; only a
fresh insertion is pushed onto the pending queue. -/
def enqueue_new_url (s : CrawlerState) (url : String) (is_sitemap : Nat) :
    CrawlerState :=
  let res := CrawlerDB.insert_or_ignore_url s.store url Status.pending is_sitemap
  if res.1 then { store := res.2, queue := s.queue ++ [url] }
  else { s with store := res.2 }

/-- src/crawler.py `add_seed_url`: normalize; an empty normalization is
reported and nothing happens; otherwise insert-if-absent as pending with the
sitemap heuristic as hint, pushing onto the queue only when inserted.
(The `main_domain` UI field and log/print output are not modelled.) -/
def add_seed_url (s : CrawlerState) (url : String) : CrawlerState :=
  let url := normalize_url url
  if url == "" then s
  else
    let is_sitemap := if looks_like_sitemap url then 1 else 0
    let res := CrawlerDB.insert_or_ignore_url s.store url Status.pending is_sitemap
    if res.1 then { store := res.2, queue := s.queue ++ [url] }
    else { s with store := res.2 }

/-- src/crawler.py `pause_url`: normalize, look the row up
(`get_url_row` = first row with that url); unknown URL is reported and
nothing happens; otherwise the status is set to paused with the reason,
whatever the current status is. -/
def pause_url (s : CrawlerState) (url reason : String) : CrawlerState :=
  let url := normalize_url url
  match s.store.find? (fun r => r.url == url) with
  | none => s
  | some _ =>
    { s with store := (CrawlerDB.update_url_status s.store url Status.paused
        none none (some reason) false false) }

/-- The while-loop body of src/crawler.py `_remove_from_pending_queue`:
pop from the left; an entry starting with the prefix is counted and dropped,
any other entry is appended to the replacement deque. -/
def remove_loop (pfx : String) : List String → List String → Nat →
    Nat × List String
  | [], newQ, removed => (removed, newQ)
  | u :: rest, newQ, removed =>
    if strStartsWith u pfx then remove_loop pfx rest newQ (removed + 1)
    else remove_loop pfx rest (newQ ++ [u]) removed

/-- src/crawler.py `_remove_from_pending_queue`: under the queue mutex,
rebuild the underlying deque, dropping the entries that start with the
prefix and returning how many were dropped. -/
def remove_from_pending_queue (q : List String) (pfx : String) :
    Nat × List String :=
  remove_loop pfx q [] 0

/-- src/crawler.py `Crawler.pause_prefix`: the store-level pause plus the
best-effort removal of matching entries from the in-memory queue. -/
def pause_prefix (s : CrawlerState) (pfx reason : String) : CrawlerState :=
  let res := CrawlerDB.pause_prefix s.store pfx reason
  let rem := remove_from_pending_queue s.queue pfx
  { store := res.2, queue := rem.2 }

/-- src/crawler.py `resume_url`: normalize, look the row up; unknown URL or a
row whose status is not paused is reported and nothing happens; otherwise the
row goes back to pending with `pause_reason` cleared and the url is pushed
onto the queue. -/
def resume_url (s : CrawlerState) (url : String) : CrawlerState :=
  let url := normalize_url url
  match s.store.find? (fun r => r.url == url) with
  | none => s
  | some row =>
    if row.status != Status.paused then s
    else
      { store := (CrawlerDB.update_url_status s.store url Status.pending
          none none none true false),
        queue := s.queue ++ [url] }

/-- src/crawler.py `Crawler.resume_prefix`: the store-level resume, then each
returned url is put onto the pending queue in order. -/
def resume_prefix (s : CrawlerState) (pfx : String) : CrawlerState :=
  let res := CrawlerDB.resume_prefix s.store pfx
  { store := res.2.2, queue := s.queue ++ res.1 }

/-- One anchor target of src/crawler.py `_handle_html_content`, after the
external steps `urljoin`/`urldefrag` produced `resolved`: normalize, drop an
empty result, drop a result that does not start with `http://` or
`https://`, otherwise register via `_enqueue_new_url` (not a sitemap). -/
def handle_html_link (s : CrawlerState) (resolved : String) : CrawlerState :=
  let new_url := normalize_url resolved
  if new_url == "" then s
  else if !(strStartsWith new_url "http://" || strStartsWith new_url "https://") then s
  else enqueue_new_url s new_url 0

/-- One `<loc>` text of src/crawler.py `_handle_sitemap_content` (both the
sitemapindex branch, lines 506-513 with `is_sitemap = 1`, and the urlset
branch, lines 520-528 with the default 0): `loc_el.text.strip()`, normalize,
skip an empty result, otherwise register via `_enqueue_new_url` — with no
scheme filter. -/
def sitemap_register_loc (s : CrawlerState) (locText : String)
    (is_sitemap : Nat) : CrawlerState :=
  let u := normalize_url (pyStrip locText)
  if u == "" then s
  else enqueue_new_url s u is_sitemap

/-- Outcome of the fetch-and-dispatch block of
`_process_url_with_db_check` for the record's own transition: a 200 response
yields success together with the sitemap classification observed (1 when the
sitemap path ran, 0 when the HTML path ran); anything else is a failure whose
message is `str(e)`. -/
inductive FetchOutcome where
  | success (isSitemapObserved : Nat)
  | failure (errorMsg : String)
deriving DecidableEq, Repr

/-- src/crawler.py `_process_url_with_db_check`, the record's own state
transition: read the row (a vanished row is skipped), skip a row that is not
pending (the code reads the row twice — between dequeue and fetch — which in
this sequential model is one read), then on success mark visited passing
`last_error=None` and the observed `is_sitemap`; on failure increment the
retry count and either go back to pending and re-enqueue (new count below
`MAX_RETRIES`) or become a terminal error (otherwise).  Link extraction on
the success path is modelled separately (`handle_html_link`,
`sitemap_register_loc`); it never touches this url's own row, which is
already present. -/
def process_url_with_db_check (s : CrawlerState) (url : String)
    (outcome : FetchOutcome) : CrawlerState :=
  match s.store.find? (fun r => r.url == url) with
  | none => s
  | some row =>
    if row.status != Status.pending then s
    else
      match outcome with
      | FetchOutcome.success isS =>
        { s with store := (CrawlerDB.update_url_status s.store url Status.visited
            none (some isS) none false false) }
      | FetchOutcome.failure msg =>
        if row.retryCount + 1 < MAX_RETRIES then
          { store := (CrawlerDB.update_url_status s.store url Status.pending
              (some msg) none none false true),
            queue := s.queue ++ [url] }
        else
          { s with store := (CrawlerDB.update_url_status s.store url Status.error
              (some msg) none none false true) }

end Crawler

/-! ## Helper lemmas -/

/-- A map whose function fixes the `url` field commutes with looking a url
up. -/
theorem find?_map_of_url_eq (g : UrlRecord → UrlRecord)
    (hg : ∀ r, (g r).url = r.url) (u : String) (l : List UrlRecord) :
    (l.map g).find? (fun r => r.url == u) = (l.find? (fun r => r.url == u)).map g := by
  induction l with
  | nil => rfl
  | cons a t ih =>
    simp only [List.map_cons, List.find?_cons, hg a]
    cases h : (a.url == u) <;> simp [ih]

theorem update_row_preserves_url (u : String) (st : Status) (le : Option String)
    (isS : Option Nat) (pr : Option String) (cpr rt : Bool) (r : UrlRecord) :
    (if r.url == u then CrawlerDB.applyUpdate st le isS pr cpr rt r else r).url
      = r.url := by
  by_cases h : (r.url == u) = true <;> simp [h, CrawlerDB.applyUpdate]

/-- `update_url_status` applied to a table whose first hit for `u` is `row`
turns that hit into `applyUpdate ... row`. -/
theorem find?_update_url_status (db : List UrlRecord) (u : String) (st : Status)
    (le : Option String) (isS : Option Nat) (pr : Option String) (cpr rt : Bool)
    (row : UrlRecord) (h : db.find? (fun r => r.url == u) = some row) :
    (CrawlerDB.update_url_status db u st le isS pr cpr rt).find?
        (fun r => r.url == u)
      = some (CrawlerDB.applyUpdate st le isS pr cpr rt row) := by
  have hrow : row.url = u := by simpa using List.find?_some h
  unfold CrawlerDB.update_url_status
  rw [find?_map_of_url_eq _ (update_row_preserves_url u st le isS pr cpr rt) u db, h]
  simp [hrow]

/-- The queue-rebuild loop of `_remove_from_pending_queue`, with an arbitrary
accumulator. -/
theorem remove_loop_eq (pfx : String) (q : List String) :
    ∀ (acc : List String) (n : Nat),
      Crawler.remove_loop pfx q acc n
        = (n + (q.filter (fun u => strStartsWith u pfx)).length,
           acc ++ q.filter (fun u => !strStartsWith u pfx)) := by
  induction q with
  | nil => intro acc n; simp [Crawler.remove_loop]
  | cons a t ih =>
    intro acc n
    by_cases h : strStartsWith a pfx = true
    · simp [Crawler.remove_loop, h, ih, Nat.add_comm, Nat.add_assoc, Nat.add_left_comm]
    · simp [Crawler.remove_loop, h, ih]

/-- Row-scan form of `CrawlerDB.pause_prefix`: it is the map that pauses
exactly the LIKE-matching pending rows, paired with their number. -/
theorem pause_prefix_eq (db : List UrlRecord) (pfx reason : String) :
    CrawlerDB.pause_prefix db pfx reason
      = ((db.filter (fun r => urlLike pfx r.url && r.status == Status.pending)).length,
         db.map (fun r =>
           if urlLike pfx r.url && r.status == Status.pending then
             { r with status := Status.paused, pauseReason := some reason }
           else r)) := by
  induction db with
  | nil => rfl
  | cons a t ih =>
    by_cases h : (urlLike pfx a.url && a.status == Status.pending) = true
    · have hp : urlLike pfx a.url = true ∧ a.status = Status.pending := by
        simpa using h
      simp [CrawlerDB.pause_prefix, ih, h, hp.1, hp.2]
    · have hp : ¬(urlLike pfx a.url = true ∧ a.status = Status.pending) := by
        simpa using h
      simp [CrawlerDB.pause_prefix, ih, h, hp]

/-! ## Claim theorems -/

/-- C9: for every queue content and every prefix,
`_remove_from_pending_queue` removes exactly the currently-queued entries
whose URL starts with the prefix, returns their number, and leaves the
remaining entries in their original relative order (the result is the
order-preserving filter of the original queue). -/
theorem C9_remove_by_prefix_exact (q : List String) (pfx : String) :
    Crawler.remove_from_pending_queue q pfx
      = ((q.filter (fun u => strStartsWith u pfx)).length,
         q.filter (fun u => !strStartsWith u pfx)) := by
  unfold Crawler.remove_from_pending_queue
  rw [remove_loop_eq]
  simp

/-- C3 (counterexample): `pause_prefix` matches with SQLite LIKE, which is
ASCII-case-insensitive, so the pending record `"a"` is paused by
`pause_prefix "A"` even though `"a"` does not literally start with `"A"` —
refuting "transitions exactly those records ... whose url literally starts
with prefix". -/
theorem C3_counterexample :
    (CrawlerDB.pause_prefix
        [{ url := "a", status := Status.pending, lastError := none,
           retryCount := 0, isSitemap := 0, pauseReason := none }] "A" "stop").2
      = [{ url := "a", status := Status.paused, lastError := none,
           retryCount := 0, isSitemap := 0, pauseReason := some "stop" }]
    ∧ strStartsWith "a" "A" = false := by
  exact ⟨by decide, by decide⟩

/-- C3 (amended): `pause_prefix prefix reason` transitions exactly those
records whose status is Pending and whose url matches the SQLite LIKE
pattern `prefix%` (ASCII-case-insensitive; `%`/`_` in the prefix act as
wildcards) to Paused with the given reason, returns the number affected, and
leaves every other record — in particular every record not in Pending —
unchanged. -/
theorem C3_pause_prefix_like (db : List UrlRecord) (pfx reason : String) :
    (CrawlerDB.pause_prefix db pfx reason).2
      = db.map (fun r =>
          if urlLike pfx r.url && r.status == Status.pending then
            { r with status := Status.paused, pauseReason := some reason }
          else r)
    ∧ (CrawlerDB.pause_prefix db pfx reason).1
      = (db.filter (fun r => urlLike pfx r.url && r.status == Status.pending)).length := by
  rw [pause_prefix_eq]
  exact ⟨rfl, rfl⟩

/-- C5: inserting a URL unknown to the store inserts exactly one record
(reported as inserted) and a second `insert_or_ignore_url` with the same URL
— whatever status or sitemap hint it asks for — reports "already known" and
leaves the store, in particular the existing record's every field,
unchanged. -/
theorem C5_insert_if_absent_twice (db : List UrlRecord) (url : String)
    (isS : Nat) (st2 : Status) (isS2 : Nat) (h : ∀ r ∈ db, r.url ≠ url) :
    CrawlerDB.insert_or_ignore_url db url Status.pending isS
      = (true, db ++ [{ url := url, status := Status.pending, lastError := none,
                        retryCount := 0, isSitemap := isS, pauseReason := none }])
    ∧ CrawlerDB.insert_or_ignore_url
        (db ++ [{ url := url, status := Status.pending, lastError := none,
                  retryCount := 0, isSitemap := isS, pauseReason := none }]) url st2 isS2
      = (false, db ++ [{ url := url, status := Status.pending, lastError := none,
                         retryCount := 0, isSitemap := isS, pauseReason := none }]) := by
  have hAny : db.any (fun r => r.url == url) = false := by
    simp only [List.any_eq_false]
    intro r hr
    simpa using h r hr
  constructor
  · simp [CrawlerDB.insert_or_ignore_url, hAny]
  · simp [CrawlerDB.insert_or_ignore_url, List.any_append, hAny]

/-- C5 witness: concrete instantiation with a one-record store. -/
theorem C5_insert_if_absent_twice_witness :
    (∀ r ∈ [{ url := "http://b/", status := Status.visited, lastError := none,
              retryCount := 0, isSitemap := 0, pauseReason := none }],
        UrlRecord.url r ≠ "http://a/")
    ∧ (CrawlerDB.insert_or_ignore_url
          [{ url := "http://b/", status := Status.visited, lastError := none,
             retryCount := 0, isSitemap := 0, pauseReason := none }]
          "http://a/" Status.pending 0
        = (true, [{ url := "http://b/", status := Status.visited, lastError := none,
                    retryCount := 0, isSitemap := 0, pauseReason := none }]
            ++ [{ url := "http://a/", status := Status.pending, lastError := none,
                  retryCount := 0, isSitemap := 0, pauseReason := none }])
      ∧ CrawlerDB.insert_or_ignore_url
          ([{ url := "http://b/", status := Status.visited, lastError := none,
              retryCount := 0, isSitemap := 0, pauseReason := none }]
            ++ [{ url := "http://a/", status := Status.pending, lastError := none,
                  retryCount := 0, isSitemap := 0, pauseReason := none }])
          "http://a/" Status.visited 1
        = (false, [{ url := "http://b/", status := Status.visited, lastError := none,
                     retryCount := 0, isSitemap := 0, pauseReason := none }]
            ++ [{ url := "http://a/", status := Status.pending, lastError := none,
                  retryCount := 0, isSitemap := 0, pauseReason := none }])) :=
  ⟨by decide,
   C5_insert_if_absent_twice
     [{ url := "http://b/", status := Status.visited, lastError := none,
        retryCount := 0, isSitemap := 0, pauseReason := none }]
     "http://a/" 0 Status.visited 1 (by decide)⟩

/-- C7: a seed URL the code rejects as invalid (normalization yields the
empty string) is only reported: `add_seed_url` performs no state mutation —
no record is inserted and nothing is pushed onto the queue. -/
theorem C7_invalid_seed_no_mutation (s : CrawlerState) (url : String)
    (h : Crawler.normalize_url url = "") :
    Crawler.add_seed_url s url = s := by
  simp [Crawler.add_seed_url, h]

/-- C7 witness: a whitespace-only seed leaves a concrete state untouched. -/
theorem C7_invalid_seed_no_mutation_witness :
    Crawler.normalize_url "   " = ""
    ∧ Crawler.add_seed_url ⟨[], ["http://q/"]⟩ "   " = ⟨[], ["http://q/"]⟩ :=
  ⟨by decide, C7_invalid_seed_no_mutation ⟨[], ["http://q/"]⟩ "   " (by decide)⟩

/-- C1: when the fetch of a pending URL fails, its retry count is
incremented by exactly 1 and the error message recorded; if the new count is
still below `MAX_RETRIES` the record goes back to Pending and the URL is
re-pushed onto the queue, and if the new count has reached `MAX_RETRIES` the
record becomes a terminal Error and the URL is not re-enqueued. -/
theorem C1_failure_retry_policy (s : CrawlerState) (url msg : String)
    (row : UrlRecord)
    (hfind : s.store.find? (fun r => r.url == url) = some row)
    (hpend : row.status = Status.pending) :
    (Crawler.process_url_with_db_check s url
        (Crawler.FetchOutcome.failure msg)).store.find? (fun r => r.url == url)
      = some { row with
          status := if row.retryCount + 1 < MAX_RETRIES then Status.pending
                    else Status.error,
          lastError := some msg,
          retryCount := row.retryCount + 1 }
    ∧ (Crawler.process_url_with_db_check s url
        (Crawler.FetchOutcome.failure msg)).queue
      = (if row.retryCount + 1 < MAX_RETRIES then s.queue ++ [url] else s.queue) := by
  have h1 := find?_update_url_status s.store url Status.pending (some msg)
    none none false true row hfind
  have h2 := find?_update_url_status s.store url Status.error (some msg)
    none none false true row hfind
  unfold Crawler.process_url_with_db_check
  rw [hfind]
  by_cases hr : row.retryCount + 1 < MAX_RETRIES
  · refine ⟨?_, by simp [hpend, hr]⟩
    simp only [hpend, hr, if_pos, bne_self_eq_false, Bool.false_eq_true,
      if_false, if_true]
    simpa [CrawlerDB.applyUpdate] using h1
  · refine ⟨?_, by simp [hpend, hr]⟩
    simp only [hpend, hr, bne_self_eq_false, Bool.false_eq_true, if_false]
    simpa [CrawlerDB.applyUpdate] using h2

/-- C1 witness: a pending record with retry count 0 fails once; it is back in
Pending with retry count 1, the error recorded, and the URL re-queued. -/
theorem C1_failure_retry_policy_witness :
    (([{ url := "http://a/", status := Status.pending, lastError := none,
         retryCount := 0, isSitemap := 0, pauseReason := none }]
        : List UrlRecord).find? (fun r => r.url == "http://a/")
      = some { url := "http://a/", status := Status.pending, lastError := none,
               retryCount := 0, isSitemap := 0, pauseReason := none })
    ∧ Status.pending = Status.pending
    ∧ ((Crawler.process_url_with_db_check
          ⟨[{ url := "http://a/", status := Status.pending, lastError := none,
              retryCount := 0, isSitemap := 0, pauseReason := none }], []⟩
          "http://a/" (Crawler.FetchOutcome.failure "timeout")).store.find?
          (fun r => r.url == "http://a/")
        = some { url := "http://a/",
                 status := if 0 + 1 < MAX_RETRIES then Status.pending
                           else Status.error,
                 lastError := some "timeout", retryCount := 0 + 1,
                 isSitemap := 0, pauseReason := none }
      ∧ (Crawler.process_url_with_db_check
          ⟨[{ url := "http://a/", status := Status.pending, lastError := none,
              retryCount := 0, isSitemap := 0, pauseReason := none }], []⟩
          "http://a/" (Crawler.FetchOutcome.failure "timeout")).queue
        = (if 0 + 1 < MAX_RETRIES then ([] : List String) ++ ["http://a/"]
           else ([] : List String))) :=
  ⟨by decide, rfl,
   C1_failure_retry_policy
     ⟨[{ url := "http://a/", status := Status.pending, lastError := none,
         retryCount := 0, isSitemap := 0, pauseReason := none }], []⟩
     "http://a/" "timeout"
     { url := "http://a/", status := Status.pending, lastError := none,
       retryCount := 0, isSitemap := 0, pauseReason := none }
     (by decide) rfl⟩

/-- C2 (code bug): a successful fetch marks the record Visited but does NOT
clear `last_error`: the `visited` update passes `last_error=None` to
`update_url_status`, whose dynamic UPDATE only assigns `last_error` when the
argument is not None, so an error left by an earlier failed attempt
survives.  Here a pending record carrying `last_error = "HTTP 500"` is
fetched successfully and is Visited yet still carries the old error. -/
theorem C2_visited_keeps_last_error :
    (Crawler.process_url_with_db_check
        ⟨[{ url := "http://a/", status := Status.pending,
            lastError := some "HTTP 500", retryCount := 1, isSitemap := 0,
            pauseReason := none }], []⟩
        "http://a/" (Crawler.FetchOutcome.success 0)).store
      = [{ url := "http://a/", status := Status.visited,
           lastError := some "HTTP 500", retryCount := 1, isSitemap := 0,
           pauseReason := none }]
    ∧ some "HTTP 500" ≠ (none : Option String) := by
  exact ⟨by decide, by decide⟩

/-- C6 (counterexample): a sitemap `<loc>` link is registered with no
http/https scheme filter — an `ftp://` location extracted from a sitemap
index is inserted into an empty store and pushed onto the queue, refuting
the claim for sitemap-extracted links. -/
theorem C6_counterexample :
    (Crawler.sitemap_register_loc ⟨[], []⟩ "ftp://files.example.com/a.xml" 1).store
      = [{ url := "ftp://files.example.com/a.xml", status := Status.pending,
           lastError := none, retryCount := 0, isSitemap := 1,
           pauseReason := none }]
    ∧ (Crawler.sitemap_register_loc ⟨[], []⟩ "ftp://files.example.com/a.xml" 1).queue
      = ["ftp://files.example.com/a.xml"]
    ∧ strStartsWith "ftp://files.example.com/a.xml" "http://" = false
    ∧ strStartsWith "ftp://files.example.com/a.xml" "https://" = false := by
  exact ⟨by decide, by decide, by decide, by decide⟩

/-- C6 (amended): for every link extracted from an HTML page whose resolved,
normalized URL does not carry an http or https scheme, the link is dropped
silently — no record inserted, nothing queued.  (Sitemap-extracted links are
not scheme-filtered; only an empty normalization is dropped there.) -/
theorem C6_html_link_scheme_filter (s : CrawlerState) (resolved : String)
    (h1 : strStartsWith (Crawler.normalize_url resolved) "http://" = false)
    (h2 : strStartsWith (Crawler.normalize_url resolved) "https://" = false) :
    Crawler.handle_html_link s resolved = s := by
  unfold Crawler.handle_html_link
  by_cases he : (Crawler.normalize_url resolved == "") = true
  · simp [he]
  · simp [he, h1, h2]

/-- C6 witness: a `mailto:` anchor target leaves a concrete state
untouched. -/
theorem C6_html_link_scheme_filter_witness :
    strStartsWith (Crawler.normalize_url "mailto:x@y") "http://" = false
    ∧ strStartsWith (Crawler.normalize_url "mailto:x@y") "https://" = false
    ∧ Crawler.handle_html_link ⟨[], ["http://q/"]⟩ "mailto:x@y"
        = ⟨[], ["http://q/"]⟩ :=
  ⟨by decide, by decide,
   C6_html_link_scheme_filter ⟨[], ["http://q/"]⟩ "mailto:x@y"
     (by decide) (by decide)⟩

/-- C8: resuming a URL whose record exists but is not Paused is a no-op —
no record changes, no transition, nothing is pushed onto the queue. -/
theorem C8_resume_non_paused_noop (s : CrawlerState) (url : String)
    (row : UrlRecord)
    (hfind : s.store.find? (fun r => r.url == Crawler.normalize_url url)
      = some row)
    (hst : row.status ≠ Status.paused) :
    Crawler.resume_url s url = s := by
  unfold Crawler.resume_url
  simp only [hfind]
  simp [hst]

/-- C8 witness: resuming a pending record changes nothing. -/
theorem C8_resume_non_paused_noop_witness :
    ((⟨[{ url := "http://a/", status := Status.pending, lastError := none,
          retryCount := 0, isSitemap := 0, pauseReason := none }],
        ["http://a/"]⟩ : CrawlerState).store.find?
        (fun r => r.url == Crawler.normalize_url "http://a/")
      = some { url := "http://a/", status := Status.pending, lastError := none,
               retryCount := 0, isSitemap := 0, pauseReason := none })
    ∧ Status.pending ≠ Status.paused
    ∧ Crawler.resume_url
        ⟨[{ url := "http://a/", status := Status.pending, lastError := none,
            retryCount := 0, isSitemap := 0, pauseReason := none }],
          ["http://a/"]⟩ "http://a/"
      = ⟨[{ url := "http://a/", status := Status.pending, lastError := none,
            retryCount := 0, isSitemap := 0, pauseReason := none }],
          ["http://a/"]⟩ :=
  ⟨by decide, by decide,
   C8_resume_non_paused_noop
     ⟨[{ url := "http://a/", status := Status.pending, lastError := none,
         retryCount := 0, isSitemap := 0, pauseReason := none }],
       ["http://a/"]⟩ "http://a/"
     { url := "http://a/", status := Status.pending, lastError := none,
       retryCount := 0, isSitemap := 0, pauseReason := none }
     (by decide) (by decide)⟩

/-- C10: `pause_url` pauses an existing record whatever its current status —
Visited and Error included — and `resume_url` afterwards brings it back to
Pending with `pause_reason` cleared and the URL re-queued. -/
theorem C10_pause_any_status_then_resume (s : CrawlerState)
    (url reason : String) (row : UrlRecord)
    (hfind : s.store.find? (fun r => r.url == Crawler.normalize_url url)
      = some row) :
    (Crawler.pause_url s url reason).store.find?
        (fun r => r.url == Crawler.normalize_url url)
      = some { row with status := Status.paused, pauseReason := some reason }
    ∧ (Crawler.pause_url s url reason).queue = s.queue
    ∧ (Crawler.resume_url (Crawler.pause_url s url reason) url).store.find?
        (fun r => r.url == Crawler.normalize_url url)
      = some { row with status := Status.pending, pauseReason := none }
    ∧ (Crawler.resume_url (Crawler.pause_url s url reason) url).queue
      = s.queue ++ [Crawler.normalize_url url] := by
  have h1 := find?_update_url_status s.store (Crawler.normalize_url url)
    Status.paused none none (some reason) false false row hfind
  have hpause : Crawler.pause_url s url reason
      = { store := CrawlerDB.update_url_status s.store
            (Crawler.normalize_url url) Status.paused none none (some reason)
            false false,
          queue := s.queue } := by
    unfold Crawler.pause_url
    simp only [hfind]
  have h2 := find?_update_url_status
    (CrawlerDB.update_url_status s.store (Crawler.normalize_url url)
      Status.paused none none (some reason) false false)
    (Crawler.normalize_url url) Status.pending none none none true false
    (CrawlerDB.applyUpdate Status.paused none none (some reason) false false row)
    h1
  have hresume : Crawler.resume_url (Crawler.pause_url s url reason) url
      = { store := CrawlerDB.update_url_status
            (CrawlerDB.update_url_status s.store (Crawler.normalize_url url)
              Status.paused none none (some reason) false false)
            (Crawler.normalize_url url) Status.pending none none none true false,
          queue := s.queue ++ [Crawler.normalize_url url] } := by
    rw [hpause]
    unfold Crawler.resume_url
    simp only [h1]
    simp [CrawlerDB.applyUpdate]
  refine ⟨?_, ?_, ?_, ?_⟩
  · rw [hpause]
    simpa [CrawlerDB.applyUpdate] using h1
  · rw [hpause]
  · rw [hresume]
    simpa [CrawlerDB.applyUpdate] using h2
  · rw [hresume]

/-- C10 witness: a terminal Error record is paused and then resumed back to
Pending. -/
theorem C10_pause_any_status_then_resume_witness :
    ((⟨[{ url := "http://a/", status := Status.error,
          lastError := some "HTTP 500", retryCount := 3, isSitemap := 0,
          pauseReason := none }], []⟩ : CrawlerState).store.find?
        (fun r => r.url == Crawler.normalize_url "http://a/")
      = some { url := "http://a/", status := Status.error,
               lastError := some "HTTP 500", retryCount := 3, isSitemap := 0,
               pauseReason := none })
    ∧ ((Crawler.pause_url
          ⟨[{ url := "http://a/", status := Status.error,
              lastError := some "HTTP 500", retryCount := 3, isSitemap := 0,
              pauseReason := none }], []⟩ "http://a/" "ops").store.find?
          (fun r => r.url == Crawler.normalize_url "http://a/")
        = some { url := "http://a/", status := Status.paused,
                 lastError := some "HTTP 500", retryCount := 3, isSitemap := 0,
                 pauseReason := some "ops" }
      ∧ (Crawler.pause_url
          ⟨[{ url := "http://a/", status := Status.error,
              lastError := some "HTTP 500", retryCount := 3, isSitemap := 0,
              pauseReason := none }], []⟩ "http://a/" "ops").queue = []
      ∧ (Crawler.resume_url
          (Crawler.pause_url
            ⟨[{ url := "http://a/", status := Status.error,
                lastError := some "HTTP 500", retryCount := 3, isSitemap := 0,
                pauseReason := none }], []⟩ "http://a/" "ops")
          "http://a/").store.find?
          (fun r => r.url == Crawler.normalize_url "http://a/")
        = some { url := "http://a/", status := Status.pending,
                 lastError := some "HTTP 500", retryCount := 3, isSitemap := 0,
                 pauseReason := none }
      ∧ (Crawler.resume_url
          (Crawler.pause_url
            ⟨[{ url := "http://a/", status := Status.error,
                lastError := some "HTTP 500", retryCount := 3, isSitemap := 0,
                pauseReason := none }], []⟩ "http://a/" "ops")
          "http://a/").queue
        = [] ++ [Crawler.normalize_url "http://a/"]) :=
  ⟨by decide,
   C10_pause_any_status_then_resume
     ⟨[{ url := "http://a/", status := Status.error,
         lastError := some "HTTP 500", retryCount := 3, isSitemap := 0,
         pauseReason := none }], []⟩ "http://a/" "ops"
     { url := "http://a/", status := Status.error,
       lastError := some "HTTP 500", retryCount := 3, isSitemap := 0,
       pauseReason := none }
     (by decide)⟩

/-- Abbreviation for the per-row WHERE test of `pause_prefix`
(`url LIKE ? AND status='pending'`). -/
def matchPending (pfx : String) (r : UrlRecord) : Bool :=
  urlLike pfx r.url && r.status == Status.pending

/-- Abbreviation for the per-row WHERE test of `resume_prefix`
(`url LIKE ? AND status='paused'`). -/
def matchPaused (pfx : String) (r : UrlRecord) : Bool :=
  urlLike pfx r.url && r.status == Status.paused

/-- Per-row effect of the `pause_prefix` UPDATE. -/
def pauseStep (pfx reason : String) (r : UrlRecord) : UrlRecord :=
  if urlLike pfx r.url && r.status == Status.pending then
    { r with status := Status.paused, pauseReason := some reason }
  else r

/-- Per-row effect of the `resume_prefix` UPDATE. -/
def resumeStep (pfx : String) (r : UrlRecord) : UrlRecord :=
  if urlLike pfx r.url && r.status == Status.paused then
    { r with status := Status.pending, pauseReason := none }
  else r

/-- Net per-row effect of pausing then resuming the same prefix. -/
def clearStep (pfx : String) (r : UrlRecord) : UrlRecord :=
  if urlLike pfx r.url && r.status == Status.pending then
    { r with status := Status.pending, pauseReason := none }
  else r

theorem pauseStep_pos (pfx reason : String) (r : UrlRecord)
    (hm : matchPending pfx r = true) :
    pauseStep pfx reason r
      = { r with status := Status.paused, pauseReason := some reason } :=
  if_pos hm

theorem pauseStep_neg (pfx reason : String) (r : UrlRecord)
    (hm : matchPending pfx r = false) :
    pauseStep pfx reason r = r :=
  if_neg (by unfold matchPending at hm; simp [hm])

theorem pauseStep_preserves_url (pfx reason : String) (r : UrlRecord) :
    (pauseStep pfx reason r).url = r.url := by
  unfold pauseStep
  by_cases hm : (urlLike pfx r.url && r.status == Status.pending) = true <;>
    simp [hm]

theorem matchPaused_pauseStep (pfx reason : String) (r : UrlRecord)
    (hm : matchPending pfx r = true) :
    matchPaused pfx (pauseStep pfx reason r) = true := by
  have hu : urlLike pfx r.url = true := by
    have h2 := hm
    unfold matchPending at h2
    rw [Bool.and_eq_true] at h2
    exact h2.1
  rw [pauseStep_pos pfx reason r hm]
  unfold matchPaused
  simp [hu]

theorem matchPaused_unmoved (pfx : String) (r : UrlRecord)
    (ha : r.status = Status.paused → urlLike pfx r.url = false) :
    matchPaused pfx r = false := by
  unfold matchPaused
  by_cases hs : r.status = Status.paused
  · simp [ha hs]
  · simp [hs]

theorem resumeStep_pauseStep (pfx reason : String) (r : UrlRecord)
    (hm : matchPending pfx r = true) :
    resumeStep pfx (pauseStep pfx reason r)
      = { r with status := Status.pending, pauseReason := none } := by
  have hu : urlLike pfx r.url = true := by
    have h2 := hm
    unfold matchPending at h2
    rw [Bool.and_eq_true] at h2
    exact h2.1
  rw [pauseStep_pos pfx reason r hm]
  unfold resumeStep
  simp [hu]

theorem resumeStep_neg (pfx : String) (r : UrlRecord)
    (hm : matchPaused pfx r = false) :
    resumeStep pfx r = r :=
  if_neg (by unfold matchPaused at hm; simp [hm])

theorem clearStep_pos (pfx : String) (r : UrlRecord)
    (hm : matchPending pfx r = true) :
    clearStep pfx r = { r with status := Status.pending, pauseReason := none } :=
  if_pos hm

theorem clearStep_neg (pfx : String) (r : UrlRecord)
    (hm : matchPending pfx r = false) :
    clearStep pfx r = r :=
  if_neg (by unfold matchPending at hm; simp [hm])

/-- After pausing the LIKE-matching pending rows, the LIKE-matching paused
rows are exactly the rows the pause moved — provided no row was already
Paused and matching. -/
theorem filter_paused_after_pause (pfx reason : String) :
    ∀ db : List UrlRecord,
      (∀ r ∈ db, r.status = Status.paused → urlLike pfx r.url = false) →
      (db.map (pauseStep pfx reason)).filter (matchPaused pfx)
        = (db.filter (matchPending pfx)).map (pauseStep pfx reason)
  | [], _ => by simp
  | a :: t, hh => by
    have ht := filter_paused_after_pause pfx reason t
      (fun r hr => hh r (List.mem_cons_of_mem a hr))
    have ha := hh a (List.mem_cons_self a t)
    cases hm : matchPending pfx a with
    | true =>
      rw [List.map_cons,
        List.filter_cons_of_pos (matchPaused_pauseStep pfx reason a hm),
        List.filter_cons_of_pos hm, List.map_cons, ht]
    | false =>
      rw [List.map_cons, pauseStep_neg pfx reason a hm,
        List.filter_cons_of_neg (by simp [matchPaused_unmoved pfx a ha]),
        List.filter_cons_of_neg (by simp [hm]), ht]

/-- Pausing the LIKE-matching pending rows and then resuming the
LIKE-matching paused rows only clears `pause_reason` on the rows the pause
moved (their status returns to pending) — provided no row was already Paused
and matching. -/
theorem map_resume_after_pause (pfx reason : String) :
    ∀ db : List UrlRecord,
      (∀ r ∈ db, r.status = Status.paused → urlLike pfx r.url = false) →
      (db.map (pauseStep pfx reason)).map (resumeStep pfx)
        = db.map (clearStep pfx)
  | [], _ => by simp
  | a :: t, hh => by
    have ht := map_resume_after_pause pfx reason t
      (fun r hr => hh r (List.mem_cons_of_mem a hr))
    have ha := hh a (List.mem_cons_self a t)
    rw [List.map_cons, List.map_cons, List.map_cons, ht]
    congr 1
    cases hm : matchPending pfx a with
    | true =>
      rw [resumeStep_pauseStep pfx reason a hm, clearStep_pos pfx a hm]
    | false =>
      rw [pauseStep_neg pfx reason a hm,
        resumeStep_neg pfx a (matchPaused_unmoved pfx a ha),
        clearStep_neg pfx a hm]

/-- C4: with no other Paused record matching the prefix, `resume_prefix`
after `pause_prefix` with the same prefix returns exactly the URLs the pause
moved to Paused, restores exactly those records to Pending with
`pause_reason` cleared (every other record as before the pause), and
re-pushes exactly those URLs onto the work queue. -/
theorem C4_resume_prefix_after_pause_prefix (db : List UrlRecord)
    (q : List String) (pfx reason : String)
    (h : ∀ r ∈ db, r.status = Status.paused → urlLike pfx r.url = false) :
    (CrawlerDB.resume_prefix (Crawler.pause_prefix ⟨db, q⟩ pfx reason).store pfx).1
      = (db.filter (fun r => urlLike pfx r.url && r.status == Status.pending)).map
          (fun r => r.url)
    ∧ (Crawler.resume_prefix (Crawler.pause_prefix ⟨db, q⟩ pfx reason) pfx).store
      = db.map (fun r =>
          if urlLike pfx r.url && r.status == Status.pending then
            { r with status := Status.pending, pauseReason := none }
          else r)
    ∧ (Crawler.resume_prefix (Crawler.pause_prefix ⟨db, q⟩ pfx reason) pfx).queue
      = (Crawler.pause_prefix ⟨db, q⟩ pfx reason).queue
        ++ (db.filter (fun r => urlLike pfx r.url && r.status == Status.pending)).map
            (fun r => r.url) := by
  have hstore : (Crawler.pause_prefix ⟨db, q⟩ pfx reason).store
      = db.map (pauseStep pfx reason) := by
    unfold Crawler.pause_prefix
    rw [pause_prefix_eq]
    rfl
  have hhits := filter_paused_after_pause pfx reason db h
  have hmaps := map_resume_after_pause pfx reason db h
  have hurls : ((db.map (pauseStep pfx reason)).filter (matchPaused pfx)).map
        (fun r => r.url)
      = (db.filter (matchPending pfx)).map (fun r => r.url) := by
    rw [hhits, List.map_map]
    exact List.map_congr_left (fun r _ => pauseStep_preserves_url pfx reason r)
  refine ⟨?_, ?_, ?_⟩
  · rw [hstore]
    exact hurls
  · show (CrawlerDB.resume_prefix (Crawler.pause_prefix ⟨db, q⟩ pfx reason).store pfx).2.2
      = _
    rw [hstore]
    exact hmaps
  · show (Crawler.pause_prefix ⟨db, q⟩ pfx reason).queue
        ++ (CrawlerDB.resume_prefix (Crawler.pause_prefix ⟨db, q⟩ pfx reason).store pfx).1
      = _
    rw [hstore]
    exact congrArg (fun x => (Crawler.pause_prefix ⟨db, q⟩ pfx reason).queue ++ x) hurls

/-- Sample store for the C4 witness: a pending URL under the prefix, a
visited one under it, and a paused record elsewhere. -/
def c4Db : List UrlRecord :=
  [{ url := "http://a/1", status := Status.pending, lastError := none,
     retryCount := 0, isSitemap := 0, pauseReason := none },
   { url := "http://a/2", status := Status.visited, lastError := none,
     retryCount := 0, isSitemap := 0, pauseReason := none },
   { url := "http://c/", status := Status.paused, lastError := none,
     retryCount := 0, isSitemap := 0, pauseReason := some "old" }]

/-- C4 witness: a concrete pause/resume round trip on `c4Db`. -/
theorem C4_resume_prefix_after_pause_prefix_witness :
    (∀ r ∈ c4Db, r.status = Status.paused → urlLike "http://a/" r.url = false)
    ∧ ((CrawlerDB.resume_prefix
          (Crawler.pause_prefix ⟨c4Db, ["x"]⟩ "http://a/" "maint").store
          "http://a/").1
        = (c4Db.filter
            (fun r => urlLike "http://a/" r.url && r.status == Status.pending)).map
            (fun r => r.url)
      ∧ (Crawler.resume_prefix
            (Crawler.pause_prefix ⟨c4Db, ["x"]⟩ "http://a/" "maint")
            "http://a/").store
        = c4Db.map (fun r =>
            if urlLike "http://a/" r.url && r.status == Status.pending then
              { r with status := Status.pending, pauseReason := none }
            else r)
      ∧ (Crawler.resume_prefix
            (Crawler.pause_prefix ⟨c4Db, ["x"]⟩ "http://a/" "maint")
            "http://a/").queue
        = (Crawler.pause_prefix ⟨c4Db, ["x"]⟩ "http://a/" "maint").queue
          ++ (c4Db.filter
              (fun r => urlLike "http://a/" r.url && r.status == Status.pending)).map
              (fun r => r.url)) :=
  ⟨by decide,
   C4_resume_prefix_after_pause_prefix c4Db ["x"] "http://a/" "maint" (by decide)⟩

end TerminalCrawler
